import Mathlib

/-!
Verification of the refresh-coordination and aggregation engine of the
azure-storage-exporter: the per-container inventory scanner, the fan-out
coordinator, the stale-while-revalidate refresh cache, and the metrics
projector, shallowly embedded from `azure_storage_exporter.py`.

Python integers are modelled by `Nat` (all sizes and counts in the source are
non-negative), wall-clock time by a `Nat` parameter, dictionaries by
association lists, and the blob-listing collaborator by the finite prefix of
records it yields before either ending normally or raising.
-/

namespace AzureExporter

/-- One listed storage object, as the scanner's duck-typed probes see it
(`azure_storage_exporter.py` lines 467-469): `deleted` models
`hasattr(blob, 'deleted') and blob.deleted`; `snapshot` models
`hasattr(blob, 'snapshot') and blob.snapshot is not None`; `versionId`
models `hasattr(blob, 'version_id') and blob.version_id is not None`;
`hasCurrentVersionAttr` models `hasattr(blob, 'is_current_version')`.
`size` is `None` or a byte count (`if blob.size:` treats `None` and `0`
alike, so the `Option` is numerically transparent). -/
structure ObjectRecord where
  deleted : Bool
  snapshot : Bool
  versionId : Bool
  hasCurrentVersionAttr : Bool
  size : Option Nat
  deriving DecidableEq, Repr

/-- Byte contribution of a record: `if blob.size: bucket += blob.size`
adds nothing for `None` and nothing for `0`, so it equals `size.getD 0`. -/
def ObjectRecord.sizeVal (r : ObjectRecord) : Nat := r.size.getD 0

/-- The eight running counters of `_process_single_container`
(lines 427-434), which are also the returned per-container metrics dict
(lines 525-534). -/
structure ContainerMetrics where
  size_bytes : Nat
  blob_count : Nat
  deleted_size_bytes : Nat
  deleted_blob_count : Nat
  snapshot_size_bytes : Nat
  snapshot_count : Nat
  version_size_bytes : Nat
  version_count : Nat
  deriving DecidableEq, Repr

/-- All counters zero (lines 427-434). -/
def ContainerMetrics.init : ContainerMetrics := ⟨0, 0, 0, 0, 0, 0, 0, 0⟩

/-- Sum of the four object counts of a metrics record. -/
def ContainerMetrics.countSum (m : ContainerMetrics) : Nat :=
  m.blob_count + m.deleted_blob_count + m.snapshot_count + m.version_count

/-- Pointwise sum of two metrics records. -/
def ContainerMetrics.add (a b : ContainerMetrics) : ContainerMetrics :=
  ⟨a.size_bytes + b.size_bytes, a.blob_count + b.blob_count,
   a.deleted_size_bytes + b.deleted_size_bytes,
   a.deleted_blob_count + b.deleted_blob_count,
   a.snapshot_size_bytes + b.snapshot_size_bytes,
   a.snapshot_count + b.snapshot_count,
   a.version_size_bytes + b.version_size_bytes,
   a.version_count + b.version_count⟩

/-- The four classification buckets. -/
inductive BlobClass where
  | deleted | snapshot | version | active
  deriving DecidableEq, Repr

/-- Classification of one record by the if/elif chain of lines 467-490:
deleted, else snapshot, else version (version id present and no
`is_current_version` attribute), else active. -/
def classify (r : ObjectRecord) : BlobClass :=
  if r.deleted then .deleted
  else if r.snapshot then .snapshot
  else if r.versionId && !r.hasCurrentVersionAttr then .version
  else .active

/-- Accumulate one record into the counters of its bucket (lines 471-490). -/
def countBlob (m : ContainerMetrics) (r : ObjectRecord) : ContainerMetrics :=
  match classify r with
  | .deleted =>
      { m with deleted_size_bytes := m.deleted_size_bytes + r.sizeVal,
               deleted_blob_count := m.deleted_blob_count + 1 }
  | .snapshot =>
      { m with snapshot_size_bytes := m.snapshot_size_bytes + r.sizeVal,
               snapshot_count := m.snapshot_count + 1 }
  | .version =>
      { m with version_size_bytes := m.version_size_bytes + r.sizeVal,
               version_count := m.version_count + 1 }
  | .active =>
      { m with size_bytes := m.size_bytes + r.sizeVal,
               blob_count := m.blob_count + 1 }

/-- Scanner configuration: `max_blobs_per_container` (0 = unlimited) and
`use_sampling` (constructor lines 54-55). -/
structure ScanConfig where
  maxBlobs : Nat
  useSampling : Bool
  deriving DecidableEq, Repr

/-- The sampling scale of lines 450-458:
`sample_ratio = processed_count / max_blobs_per_container if processed_count > 0 else 1`
followed by `field = int(field * sample_ratio)` on each of the eight
counters.  The float arithmetic is modelled exactly: each field becomes
`field * processed / maxB` with truncating division (Python `int()` truncates,
all values are non-negative). -/
def sampleScale (m : ContainerMetrics) (processed maxB : Nat) : ContainerMetrics :=
  if processed > 0 then
    ⟨m.size_bytes * processed / maxB, m.blob_count * processed / maxB,
     m.deleted_size_bytes * processed / maxB, m.deleted_blob_count * processed / maxB,
     m.snapshot_size_bytes * processed / maxB, m.snapshot_count * processed / maxB,
     m.version_size_bytes * processed / maxB, m.version_count * processed / maxB⟩
  else m

/-- The main loop of lines 444-490 over the records the full listing yields:
at each iteration first check `max_blobs_per_container > 0 and
processed_count >= max_blobs_per_container` (break, scaling the counters
first when sampling is on), otherwise increment `processed_count` and
classify-and-count the record.  Returns the counters, the final
`processed_count`, and whether the loop broke at the limit. -/
def scanLoop (cfg : ScanConfig) :
    List ObjectRecord → Nat → ContainerMetrics → ContainerMetrics × Nat × Bool
  | [], p, m => (m, p, false)
  | r :: rs, p, m =>
      if cfg.maxBlobs > 0 ∧ cfg.maxBlobs ≤ p then
        (if cfg.useSampling then (sampleScale m p cfg.maxBlobs, p, true)
         else (m, p, true))
      else scanLoop cfg rs (p + 1) (countBlob m r)

/-- A behaviour of the object-listing collaborator: the records it yields,
and whether the iteration raises after yielding them (a mid-stream failure
is a failure after the prefix it had already yielded). -/
structure Listing where
  records : List ObjectRecord
  raisesAtEnd : Bool
  deriving DecidableEq, Repr

/-- One step of the fallback loop (lines 498-507): reduced listing
classifies only deleted vs active. -/
def fallbackCount (m : ContainerMetrics) (r : ObjectRecord) : ContainerMetrics :=
  if r.deleted then
    { m with deleted_size_bytes := m.deleted_size_bytes + r.sizeVal,
             deleted_blob_count := m.deleted_blob_count + 1 }
  else
    { m with size_bytes := m.size_bytes + r.sizeVal,
             blob_count := m.blob_count + 1 }

/-- The fallback loop of lines 497-507: fold `fallbackCount` over the
reduced listing's records, starting from the counters already accumulated.
No limit or sampling check appears in this loop. -/
def fallbackLoop (rs : List ObjectRecord) (m : ContainerMetrics) : ContainerMetrics :=
  rs.foldl fallbackCount m

/-- The first `try` block (lines 436-491): run the main loop over the full
listing.  Returns the accumulated counters and whether an exception
escaped the loop — which happens exactly when the listing raises and the
loop did not break at the limit first (a break swallows the rest of the
stream, so a later raise is never seen). -/
def tryFullListing (cfg : ScanConfig) (full : Listing) : ContainerMetrics × Bool :=
  let (m, _, broke) := scanLoop cfg full.records 0 .init
  (m, full.raisesAtEnd && !broke)

/-- `_process_single_container` (lines 411-534) restricted to its metric
result: run the full listing; if it raised, fall back to the reduced
listing (lines 492-509), continuing from the counters already accumulated;
an exception from the reduced listing is caught and the counters
accumulated so far are kept (the records the reduced listing yielded
before raising are already folded in).  The function always returns the
counters — no exception reaches the caller. -/
def processSingleContainer (cfg : ScanConfig) (full reduced : Listing) :
    ContainerMetrics :=
  let (m1, raised) := tryFullListing cfg full
  if raised then fallbackLoop reduced.records m1 else m1

/-- The same control flow with the exception channel made explicit: an
uncaught exception would be `.error`.  Each `except` arm of the source
(lines 492-493 and 508-509) catches, so every path ends in `.ok`. -/
def processSingleContainerE (cfg : ScanConfig) (full reduced : Listing) :
    Except String ContainerMetrics :=
  match tryFullListing cfg full with
  | (m1, false) => .ok m1
  | (m1, true) =>
      -- fallback attempt; its own failure is caught at lines 508-509 and the
      -- function falls through to the return of lines 525-534
      .ok (fallbackLoop reduced.records m1)

/-! ### Fan-out coordinator (`_get_container_metrics`, lines 536-606) -/

/-- The account snapshot: the `containers_data` dict, modelled as an
association list from container name to metrics. -/
abbrev Snap := List (String × ContainerMetrics)

/-- Python dict assignment `containers_data[name] = metrics` (line 573):
overwrite the entry if the key is present, else append. -/
def insertResult (d : Snap) (name : String) (m : ContainerMetrics) : Snap :=
  if d.any (fun p => p.1 = name) then
    d.map (fun p => if p.1 = name then (name, m) else p)
  else d ++ [(name, m)]

/-- Outcome of one container's scanner invocation as the coordinator's
`future.result()` sees it: `some metrics`, or `none` when the future
raised. -/
abbrev ScanOutcome := String × Option ContainerMetrics

/-- One iteration of the result-collection loop of lines 567-577: on
success (`future.result()` returned) store the metrics under the
container's name, on exception log and continue (the container is
omitted). -/
def coordStep (d : Snap) (p : ScanOutcome) : Snap :=
  match p.2 with
  | some m => insertResult d p.1 m
  | none => d

/-- The result-collection loop of `_get_container_metrics`
(lines 567-577), starting from the empty `containers_data` dict. -/
def getContainerMetrics (outcomes : List ScanOutcome) : Snap :=
  outcomes.foldl coordStep []

/-! ### Refresh cache (`_is_cache_valid`, `_get_cached_or_fresh_data`,
`_background_refresh`, lines 153-231) -/

/-- The cache's mutable state (fields set in `__init__`, lines 80-83) plus
the instrumentation written by the read path: the cache-hit and cache-miss
counters and the cache-age gauge. -/
structure CacheState where
  cache : Option Snap
  cacheTimestamp : Option Nat
  refreshInProgress : Bool
  cacheHits : Nat
  cacheMisses : Nat
  cacheAge : Nat
  deriving DecidableEq

/-- Initial state (lines 80-83): no snapshot, no timestamp, no refresh in
progress, zeroed instrumentation. -/
def CacheState.initState : CacheState := ⟨none, none, false, 0, 0, 0⟩

/-- `_is_cache_valid` (lines 153-159): false when snapshot or timestamp is
absent, else the age `now - timestamp` is strictly below the TTL. -/
def isCacheValid (ttl : Nat) (now : Nat) (s : CacheState) : Bool :=
  match s.cache, s.cacheTimestamp with
  | some _, some ts => now - ts < ttl
  | _, _ => false

/-- What one call to `_get_cached_or_fresh_data` produced: the state after
the call, the snapshot returned, whether a blocking fetch ran, and whether
a background-refresh thread was spawned. -/
structure ReadResult where
  state : CacheState
  returned : Snap
  didFetch : Bool
  spawnedRefresh : Bool
  deriving DecidableEq

/-- `_get_cached_or_fresh_data` (lines 161-204).  `now` is the reading of
`time.time()` used for the validity check and age gauge, `now2` the
reading stored as the new timestamp after a blocking fetch, and `fetched`
the snapshot a blocking `_get_container_metrics()` call would return.
Valid cache: record age, bump hits, return the snapshot (lines 168-173).
No cache at all: bump misses, blocking fetch, store snapshot and
timestamp, zero the age gauge (lines 176-189).  Stale cache: bump misses,
spawn a background refresh only when none is in progress (setting the
flag first), record age, return the stale snapshot (lines 176, 191-204).
Result is `none` on the state the code would crash on (snapshot present
but timestamp absent, where line 201 subtracts from `None`); that state
is never reachable, see `cacheSystem_invariant`. -/
def getCachedOrFreshData (ttl : Nat) (fetched : Snap) (now now2 : Nat)
    (s : CacheState) : Option ReadResult :=
  match s.cache, s.cacheTimestamp with
  | some c, some ts =>
      if now - ts < ttl then
        some ⟨{ s with cacheAge := now - ts, cacheHits := s.cacheHits + 1 },
              c, false, false⟩
      else if s.refreshInProgress then
        some ⟨{ s with cacheMisses := s.cacheMisses + 1, cacheAge := now - ts },
              c, false, false⟩
      else
        some ⟨{ s with cacheMisses := s.cacheMisses + 1,
                       refreshInProgress := true, cacheAge := now - ts },
              c, false, true⟩
  | none, _ =>
      some ⟨{ s with cacheMisses := s.cacheMisses + 1, cache := some fetched,
                     cacheTimestamp := some now2, cacheAge := 0 },
            fetched, true, false⟩
  | some _, none => none

/-- Completion of `_background_refresh` (lines 206-231) as a state update:
on success (fetch returned `some snap`) store the snapshot and the new
timestamp, clear the flag, zero the age gauge (lines 220-224); on failure
(the fetch raised) only clear the flag (lines 228-231). -/
def backgroundRefreshStep (result : Option Snap) (now : Nat)
    (s : CacheState) : CacheState :=
  match result with
  | some snap =>
      { s with cache := some snap, cacheTimestamp := some now,
               refreshInProgress := false, cacheAge := 0 }
  | none => { s with refreshInProgress := false }

/-- Cache state paired with the number of background-refresh threads
currently alive (a ghost counter: spawning a thread at line 196 increments
it, a thread finishing `_background_refresh` decrements it). -/
structure SysState where
  cs : CacheState
  inFlight : Nat

/-- Events of the cache system: a scrape-path read, or the completion of a
background refresh (whose fetch either produced a snapshot or raised). -/
inductive CacheEvent where
  | read (fetched : Snap) (now now2 : Nat)
  | refreshDone (result : Option Snap) (now : Nat)

/-- Transition relation of the cache system.  A read applies
`getCachedOrFreshData` (it must not crash) and increments the in-flight
counter when it spawned a refresh thread; a refresh completion requires a
thread to be in flight, applies `backgroundRefreshStep`, and decrements
the counter. -/
inductive CacheStep (ttl : Nat) : SysState → CacheEvent → SysState → Prop where
  | read {s : CacheState} {n : Nat} {fetched : Snap} {now now2 : Nat}
      {r : ReadResult}
      (h : getCachedOrFreshData ttl fetched now now2 s = some r) :
      CacheStep ttl ⟨s, n⟩ (.read fetched now now2)
        ⟨r.state, n + (if r.spawnedRefresh then 1 else 0)⟩
  | refreshDone {s : CacheState} {n : Nat} {result : Option Snap} {now : Nat}
      (h : 0 < n) :
      CacheStep ttl ⟨s, n⟩ (.refreshDone result now)
        ⟨backgroundRefreshStep result now s, n - 1⟩

/-- States reachable from the initial state by cache-system steps. -/
inductive Reachable (ttl : Nat) : SysState → Prop where
  | init : Reachable ttl ⟨CacheState.initState, 0⟩
  | step {σ σ' : SysState} {e : CacheEvent} (hr : Reachable ttl σ)
      (hs : CacheStep ttl σ e σ') : Reachable ttl σ'

/-! ### Metrics projector (`collect`, lines 233-409) -/

/-- The four account-level totals accumulated by the loop of lines 298-339,
in the tuple order (active, deleted, snapshot, version). -/
def collectTotals (snap : Snap) : Nat × Nat × Nat × Nat :=
  snap.foldl
    (fun acc p =>
      (acc.1 + p.2.size_bytes, acc.2.1 + p.2.deleted_size_bytes,
       acc.2.2.1 + p.2.snapshot_size_bytes, acc.2.2.2 + p.2.version_size_bytes))
    (0, 0, 0, 0)

/-- The values of the four account-level rollup gauges emitted at lines
350-396: active-only, deleted-only, active+deleted, and
active+deleted+snapshots+versions. -/
structure AccountRollups where
  totalSize : Nat
  totalDeleted : Nat
  totalWithDeleted : Nat
  totalAll : Nat
  deriving DecidableEq, Repr

/-- The account-level part of `collect`: fold the per-container metrics and
emit the four rollups (`total_size`, `total_deleted_size`,
`total_size + total_deleted_size`, and the sum of all four totals). -/
def collectRollups (snap : Snap) : AccountRollups :=
  let t := collectTotals snap
  ⟨t.1, t.2.1, t.1 + t.2.1, t.1 + t.2.1 + t.2.2.1 + t.2.2.2⟩

/-! ### Lock discipline of the cache paths -/

/-- One atomic action of a cache code path, tagged with whether it is a
(potentially slow) upstream fetch and whether the cache lock is held while
it runs. -/
structure LockedAction where
  isFetch : Bool
  underLock : Bool
  deriving DecidableEq, Repr

/-- The action trace of one `_get_cached_or_fresh_data` call, read off the
source: the whole body, lines 166-204, sits inside `with self._cache_lock:`.
Valid cache: state inspection and instrumentation under the lock.  No
cache: state inspection, then the blocking `_get_container_metrics()` fetch
of line 183 — still under the lock — then the state update.  Stale cache:
state inspection and the flag/spawn update under the lock (spawning the
thread is not itself a fetch). -/
def readTrace (valid cacheAbsent : Bool) : List LockedAction :=
  if valid then [⟨false, true⟩]
  else if cacheAbsent then [⟨false, true⟩, ⟨true, true⟩, ⟨false, true⟩]
  else [⟨false, true⟩, ⟨false, true⟩]

/-- The action trace of one `_background_refresh` run: the
`_get_container_metrics()` fetch of line 213 runs with no lock held; the
state update (lines 220-224 on success, 230-231 on failure) runs inside
`with self._cache_lock:`. -/
def backgroundRefreshTrace (fails : Bool) : List LockedAction :=
  if fails then [⟨true, false⟩, ⟨false, true⟩]
  else [⟨true, false⟩, ⟨false, true⟩]

/-! ## Helper lemmas -/

/-- With `max_blobs_per_container = 0` the limit check is never true: the
loop folds over the whole stream and never breaks. -/
lemma scanLoop_maxZero (u : Bool) :
    ∀ (rs : List ObjectRecord) (p : Nat) (m : ContainerMetrics),
      scanLoop ⟨0, u⟩ rs p m = (rs.foldl countBlob m, p + rs.length, false) := by
  intro rs
  induction rs with
  | nil => intro p m; simp [scanLoop]
  | cons r rs ih =>
      intro p m
      simp only [scanLoop, Nat.lt_irrefl, false_and, if_false, ih,
        List.foldl_cons, List.length_cons]
      have harith : p + 1 + rs.length = p + (rs.length + 1) := by omega
      rw [harith]

/-- Scaling by `processed / max` when `processed = max > 0` is the
identity: the "sampling estimate" equals the raw partial sums. -/
lemma sampleScale_self (m : ContainerMetrics) {M : Nat} (hM : 0 < M) :
    sampleScale m M M = m := by
  simp [sampleScale, hM, Nat.mul_div_cancel _ hM]

/-- Starting below the limit, the loop reaches the limit exactly (the
counter increments one record at a time), so the sampling branch and the
plain-truncation branch return identical results. -/
lemma scanLoop_sampling_eq {M : Nat} (hM : 0 < M) :
    ∀ (rs : List ObjectRecord) (p : Nat) (m : ContainerMetrics), p ≤ M →
      scanLoop ⟨M, true⟩ rs p m = scanLoop ⟨M, false⟩ rs p m := by
  intro rs
  induction rs with
  | nil => intro p m _; rfl
  | cons r rs ih =>
      intro p m hp
      by_cases hbreak : M ≤ p
      · have hpM : p = M := Nat.le_antisymm hp hbreak
        subst hpM
        simp [scanLoop, hM, sampleScale_self m hM]
      · have hlt : p < M := Nat.lt_of_not_le hbreak
        simp only [scanLoop, hbreak, and_false, if_false]
        exact ih (p + 1) (countBlob m r) hlt

/-- Each record is accumulated into exactly one bucket: processing one
record raises the sum of the four counts by exactly one. -/
lemma countBlob_countSum (m : ContainerMetrics) (r : ObjectRecord) :
    (countBlob m r).countSum = m.countSum + 1 := by
  cases h : classify r <;>
    simp [countBlob, h, ContainerMetrics.countSum] <;> omega

/-- Without sampling, the sum of the four counts grows in lockstep with the
processed-record counter. -/
lemma scanLoop_countSum (M : Nat) :
    ∀ (rs : List ObjectRecord) (p : Nat) (m : ContainerMetrics),
      (scanLoop ⟨M, false⟩ rs p m).1.countSum + p
        = m.countSum + (scanLoop ⟨M, false⟩ rs p m).2.1 := by
  intro rs
  induction rs with
  | nil => intro p m; rfl
  | cons r rs ih =>
      intro p m
      by_cases hbreak : 0 < M ∧ M ≤ p
      · simp [scanLoop, hbreak]
      · simp only [scanLoop, hbreak, if_false]
        have := ih (p + 1) (countBlob m r)
        rw [countBlob_countSum] at this
        omega

/-- The fallback-loop fold is additive in its accumulator. -/
lemma fallbackLoop_add :
    ∀ (rs : List ObjectRecord) (a b : ContainerMetrics),
      fallbackLoop rs (a.add b) = a.add (fallbackLoop rs b) := by
  intro rs
  induction rs with
  | nil => intro a b; rfl
  | cons r rs ih =>
      intro a b
      have hstep : fallbackCount (a.add b) r = a.add (fallbackCount b r) := by
        by_cases hd : r.deleted <;>
          simp [fallbackCount, hd, ContainerMetrics.add, Nat.add_assoc]
      simp only [fallbackLoop, List.foldl_cons] at ih ⊢
      rw [hstep, ih]

/-- Zeroed counters are a neutral element for metrics addition. -/
lemma add_init (m : ContainerMetrics) : m.add .init = m := by
  simp [ContainerMetrics.add, ContainerMetrics.init]

/-- Running the fallback loop on counters `m` adds to `m` the sums of a
fallback run started from zero. -/
lemma fallbackLoop_split (rs : List ObjectRecord) (m : ContainerMetrics) :
    fallbackLoop rs m = m.add (fallbackLoop rs .init) := by
  have := fallbackLoop_add rs m .init
  rwa [add_init] at this

/-- The scanner result is the full-listing loop's counters whenever the
full listing ends without raising. -/
lemma processSingleContainer_noRaise (cfg : ScanConfig)
    (rs : List ObjectRecord) (red : Listing) :
    processSingleContainer cfg ⟨rs, false⟩ red
      = (scanLoop cfg rs 0 .init).1 := by
  rcases hs : scanLoop cfg rs 0 .init with ⟨m, p, broke⟩
  simp [processSingleContainer, tryFullListing, hs]

/-! ## Claims -/

/-- C1: the claim says that with `max_objects > 0` and `use_sampling = true`
the scanner returns the eight counters scaled by
`processed_count / max_objects`, yielding a projected estimate distinct
from the raw partial sums.  In the code, the break fires exactly when
`processed_count` has reached `max_blobs_per_container`, so the scale
factor is always `max/max = 1` and the "estimate" is identical to the raw
partial sums of the truncated scan: sampling mode returns the same metrics
as plain truncation on every input, as the second, concrete conjunct
shows on a stream of three 10-byte active blobs with `max_objects = 2`
(result: 20 bytes and 2 blobs, the raw partial sums, not a projection). -/
theorem C1_sampling_scale_is_identity :
    (∀ (M : Nat) (full reduced : Listing),
        processSingleContainer ⟨M, true⟩ full reduced
          = processSingleContainer ⟨M, false⟩ full reduced)
    ∧ processSingleContainer ⟨2, true⟩
        ⟨[⟨false, false, false, false, some 10⟩,
          ⟨false, false, false, false, some 10⟩,
          ⟨false, false, false, false, some 10⟩], false⟩ ⟨[], false⟩
        = { ContainerMetrics.init with size_bytes := 20, blob_count := 2 } := by
  constructor
  · intro M full reduced
    have hloop : scanLoop ⟨M, true⟩ full.records 0 .init
        = scanLoop ⟨M, false⟩ full.records 0 .init := by
      rcases Nat.eq_zero_or_pos M with hM | hM
      · subst hM
        rw [scanLoop_maxZero, scanLoop_maxZero]
      · exact scanLoop_sampling_eq hM full.records 0 .init (Nat.zero_le M)
    simp [processSingleContainer, tryFullListing, hloop]
  · decide

/-- C2: the scanner never lets a listing failure escape to its caller: if
the full listing raises (and the loop had not already stopped at the
limit), it retries once with the reduced listing, and even when that also
fails it returns the counters accumulated so far — here, the counters of
the failed full pass further accumulated over everything the reduced
listing yielded before its own failure. -/
theorem C2_scanner_never_raises (cfg : ScanConfig) (full reduced : Listing)
    (hfull : full.raisesAtEnd = true)
    (hnb : (scanLoop cfg full.records 0 .init).2.2 = false) :
    (∀ (cfg2 : ScanConfig) (f r : Listing),
        (processSingleContainerE cfg2 f r).isOk = true)
    ∧ processSingleContainerE cfg full reduced
        = .ok (fallbackLoop reduced.records
            (scanLoop cfg full.records 0 .init).1) := by
  constructor
  · intro cfg2 f r
    rcases h : tryFullListing cfg2 f with ⟨m, b⟩
    cases b <;> simp [processSingleContainerE, h, Except.isOk, Except.toBool]
  · rcases hs : scanLoop cfg full.records 0 .init with ⟨m, p, broke⟩
    rw [hs] at hnb
    simp only at hnb
    simp [processSingleContainerE, tryFullListing, hs, hfull, hnb]

/-- Witness for C2 at a concrete input: one active 5-byte blob yielded by a
full listing that then raises, and a reduced listing that yields one
deleted 7-byte blob and then raises as well. -/
theorem C2_scanner_never_raises_witness :
    (∀ (cfg2 : ScanConfig) (f r : Listing),
        (processSingleContainerE cfg2 f r).isOk = true)
    ∧ processSingleContainerE ⟨0, false⟩
        ⟨[⟨false, false, false, false, some 5⟩], true⟩
        ⟨[⟨true, false, false, false, some 7⟩], true⟩
        = .ok (fallbackLoop [⟨true, false, false, false, some 7⟩]
            (scanLoop ⟨0, false⟩ [⟨false, false, false, false, some 5⟩]
              0 .init).1) :=
  C2_scanner_never_raises ⟨0, false⟩
    ⟨[⟨false, false, false, false, some 5⟩], true⟩
    ⟨[⟨true, false, false, false, some 7⟩], true⟩ rfl rfl

/-- C3: without sampling, every record is counted in exactly one bucket
(processing a record raises the sum of the four counts by exactly one, so
classification is exhaustive and mutually exclusive), the four counts of a
successful scan sum to the number of records processed, and with no limit
configured that number is the full length of the stream.  Counts are `Nat`
in the model because every counter in the source only ever increases from
zero, so non-negativity holds by construction. -/
theorem C3_classification_partition :
    ∀ (M : Nat) (rs : List ObjectRecord) (red : Listing),
      (∀ (m : ContainerMetrics) (r : ObjectRecord),
          (countBlob m r).countSum = m.countSum + 1)
      ∧ (processSingleContainer ⟨M, false⟩ ⟨rs, false⟩ red).countSum
          = (scanLoop ⟨M, false⟩ rs 0 .init).2.1
      ∧ (processSingleContainer ⟨0, false⟩ ⟨rs, false⟩ red).countSum
          = rs.length := by
  intro M rs red
  refine ⟨countBlob_countSum, ?_, ?_⟩
  · rw [processSingleContainer_noRaise]
    have h := scanLoop_countSum M rs 0 .init
    simpa [ContainerMetrics.countSum, ContainerMetrics.init] using h
  · rw [processSingleContainer_noRaise]
    have h := scanLoop_countSum 0 rs 0 .init
    rw [scanLoop_maxZero] at h ⊢
    simpa [ContainerMetrics.countSum, ContainerMetrics.init] using h

/-- C9: when the full listing raises after its yielded prefix (and the
limit had not stopped the loop first), the fallback restarts the reduced
listing from the beginning of the container without resetting the
counters and with no limit check, so the returned metrics are the partial
sums of the failed full pass plus the complete sums of the fallback pass —
any object yielded in both passes is counted twice. -/
theorem C9_fallback_adds_both_passes (cfg : ScanConfig)
    (pre red : List ObjectRecord)
    (hnb : (scanLoop cfg pre 0 .init).2.2 = false) :
    processSingleContainer cfg ⟨pre, true⟩ ⟨red, false⟩
      = ContainerMetrics.add (scanLoop cfg pre 0 .init).1
          (fallbackLoop red .init) := by
  rcases hs : scanLoop cfg pre 0 .init with ⟨m, p, broke⟩
  rw [hs] at hnb
  have hb : broke = false := hnb
  subst hb
  simp [processSingleContainer, tryFullListing, hs]
  exact fallbackLoop_split red m

/-- Witness for C9 at a concrete input: limit 2, a full pass that yields
one 5-byte active blob then raises, and a reduced listing of three 5-byte
active blobs (longer than the limit, and containing the very blob the
failed pass already counted). -/
theorem C9_fallback_adds_both_passes_witness :
    processSingleContainer ⟨2, false⟩
        ⟨[⟨false, false, false, false, some 5⟩], true⟩
        ⟨[⟨false, false, false, false, some 5⟩,
          ⟨false, false, false, false, some 5⟩,
          ⟨false, false, false, false, some 5⟩], false⟩
      = ContainerMetrics.add
          (scanLoop ⟨2, false⟩ [⟨false, false, false, false, some 5⟩]
            0 .init).1
          (fallbackLoop
            [⟨false, false, false, false, some 5⟩,
             ⟨false, false, false, false, some 5⟩,
             ⟨false, false, false, false, some 5⟩] .init) :=
  C9_fallback_adds_both_passes ⟨2, false⟩
    [⟨false, false, false, false, some 5⟩]
    [⟨false, false, false, false, some 5⟩,
     ⟨false, false, false, false, some 5⟩,
     ⟨false, false, false, false, some 5⟩] rfl

/-- Generalised accumulator form of the rollup fold of `collect`
(lines 298-339): folding from `(a, b, c, d)` adds the four per-container
column sums. -/
lemma collectTotals_go (snap : Snap) :
    ∀ (a b c d : Nat),
      snap.foldl
        (fun acc p =>
          (acc.1 + p.2.size_bytes, acc.2.1 + p.2.deleted_size_bytes,
           acc.2.2.1 + p.2.snapshot_size_bytes,
           acc.2.2.2 + p.2.version_size_bytes))
        (a, b, c, d)
      = (a + (snap.map (fun p => p.2.size_bytes)).sum,
         b + (snap.map (fun p => p.2.deleted_size_bytes)).sum,
         c + (snap.map (fun p => p.2.snapshot_size_bytes)).sum,
         d + (snap.map (fun p => p.2.version_size_bytes)).sum) := by
  induction snap with
  | nil => intro a b c d; simp
  | cons q t ih =>
      intro a b c d
      simp only [List.foldl_cons, List.map_cons, List.sum_cons, ih,
        Prod.mk.injEq]
      refine ⟨by omega, by omega, by omega, by omega⟩

/-- The four totals of `collect` are the column sums of the snapshot. -/
lemma collectTotals_eq (snap : Snap) :
    collectTotals snap
      = ((snap.map (fun p => p.2.size_bytes)).sum,
         (snap.map (fun p => p.2.deleted_size_bytes)).sum,
         (snap.map (fun p => p.2.snapshot_size_bytes)).sum,
         (snap.map (fun p => p.2.version_size_bytes)).sum) := by
  have h := collectTotals_go snap 0 0 0 0
  simpa [collectTotals] using h

/-- C5: the four account-level rollups emitted by `collect` are exactly the
sums of the corresponding per-container fields — active-only, deleted-only,
their sum, and the sum of all four byte totals — and on a snapshot whose
single container has 1,048,576,000 active and 524,288,000 deleted bytes
the active+deleted rollup is 1,572,864,000. -/
theorem C5_account_rollups :
    ∀ snap : Snap,
      (collectRollups snap).totalSize
          = (snap.map (fun p => p.2.size_bytes)).sum
      ∧ (collectRollups snap).totalDeleted
          = (snap.map (fun p => p.2.deleted_size_bytes)).sum
      ∧ (collectRollups snap).totalWithDeleted
          = (snap.map (fun p => p.2.size_bytes)).sum
            + (snap.map (fun p => p.2.deleted_size_bytes)).sum
      ∧ (collectRollups snap).totalAll
          = (snap.map (fun p => p.2.size_bytes)).sum
            + (snap.map (fun p => p.2.deleted_size_bytes)).sum
            + (snap.map (fun p => p.2.snapshot_size_bytes)).sum
            + (snap.map (fun p => p.2.version_size_bytes)).sum
      ∧ (collectRollups
            [("logs", ⟨1048576000, 100, 524288000, 50, 0, 0, 0, 0⟩)]
          ).totalWithDeleted = 1572864000 := by
  intro snap
  refine ⟨?_, ?_, ?_, ?_, by rfl⟩ <;>
    simp [collectRollups, collectTotals_eq]

/-- Dict assignment for a key not yet present appends the binding. -/
lemma insertResult_notMem (d : Snap) (name : String) (m : ContainerMetrics)
    (h : name ∉ d.map Prod.fst) :
    insertResult d name m = d ++ [(name, m)] := by
  have hany : ¬ (d.any (fun p => p.1 = name) = true) := by
    simp only [List.any_eq_true, decide_eq_true_eq]
    rintro ⟨p, hp, hpn⟩
    exact h (List.mem_map.mpr ⟨p, hp, hpn⟩)
  simp [insertResult, hany]

/-- Length of the coordinator's result-collection fold: with pairwise
distinct container names, none of which is already a key of the
accumulator, the fold adds one entry per successful outcome. -/
lemma coordFold_length :
    ∀ (outcomes : List ScanOutcome) (d : Snap),
      (outcomes.map Prod.fst).Nodup →
      (∀ x ∈ outcomes.map Prod.fst, x ∉ d.map Prod.fst) →
      (outcomes.foldl coordStep d).length
        = d.length + (outcomes.filter (fun p => p.2.isSome)).length := by
  intro outcomes
  induction outcomes with
  | nil => intro d _ _; simp
  | cons q t ih =>
      intro d hnd hdisj
      have hnd' : (t.map Prod.fst).Nodup :=
        (List.nodup_cons.mp (by simpa using hnd)).2
      have hhead : q.1 ∉ t.map Prod.fst :=
        (List.nodup_cons.mp (by simpa using hnd)).1
      rcases hq : q.2 with _ | m
      · have hstep : coordStep d q = d := by simp [coordStep, hq]
        simp only [List.foldl_cons, hstep]
        rw [ih d hnd' (fun x hx => hdisj x (by simp [hx]))]
        simp [List.filter_cons, hq]
      · have hqd : q.1 ∉ d.map Prod.fst := hdisj q.1 (by simp)
        have hstep : coordStep d q = d ++ [(q.1, m)] := by
          simp [coordStep, hq, insertResult_notMem d q.1 m hqd]
        simp only [List.foldl_cons, hstep]
        have hdisj' :
            ∀ x ∈ t.map Prod.fst, x ∉ (d ++ [(q.1, m)]).map Prod.fst := by
          intro x hx
          simp only [List.map_append, List.mem_append, List.map_cons,
            List.map_nil, List.mem_singleton, not_or]
          exact ⟨hdisj x (by simp [hx]),
                 fun hxq => hhead (hxq ▸ hx)⟩
        rw [ih (d ++ [(q.1, m)]) hnd' hdisj']
        simp [List.filter_cons, hq]
        omega

/-- Every outcome is either a success or a raised future: the two filters
partition the outcome list. -/
lemma filter_isSome_isNone_length (outcomes : List ScanOutcome) :
    (outcomes.filter (fun p => p.2.isSome)).length
      + (outcomes.filter (fun p => p.2.isNone)).length = outcomes.length := by
  induction outcomes with
  | nil => rfl
  | cons q t ih =>
      rcases hq : q.2 with _ | m <;>
        simp [List.filter_cons, hq] <;> omega

/-- C6: with N pairwise-distinct container names of which exactly one
scanner future raises, the coordinator still completes and its snapshot
has exactly N − 1 entries — the raising container is omitted, the batch is
not aborted. -/
theorem C6_fanout_partial_failure (outcomes : List ScanOutcome)
    (hnd : (outcomes.map Prod.fst).Nodup)
    (hone : (outcomes.filter (fun p => p.2.isNone)).length = 1) :
    (getContainerMetrics outcomes).length = outcomes.length - 1 := by
  have h : (outcomes.foldl coordStep ([] : Snap)).length
      = (outcomes.filter (fun p => p.2.isSome)).length := by
    simpa using coordFold_length outcomes [] hnd (by simp)
  have h2 := filter_isSome_isNone_length outcomes
  show (outcomes.foldl coordStep ([] : Snap)).length = outcomes.length - 1
  rw [h]
  omega

/-- Witness for C6: two containers, the second of which raises. -/
theorem C6_fanout_partial_failure_witness :
    (getContainerMetrics
        [("a", some ContainerMetrics.init), ("b", none)]).length
      = ([("a", some ContainerMetrics.init), ("b", none)]
          : List ScanOutcome).length - 1 :=
  C6_fanout_partial_failure
    [("a", some ContainerMetrics.init), ("b", none)]
    (by decide) (by decide)

/-- Shape of any successful read: afterwards snapshot and timestamp are
both present, the in-progress flag is the old flag or-ed with whether this
read spawned a refresh, and a refresh is spawned only from a clear flag. -/
lemma getCached_spec {ttl : Nat} {f : Snap} {now now2 : Nat}
    {s : CacheState} {r : ReadResult}
    (h : getCachedOrFreshData ttl f now now2 s = some r) :
    r.state.cache.isSome = true
    ∧ r.state.cacheTimestamp.isSome = true
    ∧ r.state.refreshInProgress = (s.refreshInProgress || r.spawnedRefresh)
    ∧ (r.spawnedRefresh = true → s.refreshInProgress = false) := by
  obtain ⟨cache, cts, flag, hits, misses, age⟩ := s
  rcases cache with _ | c
  · simp only [getCachedOrFreshData] at h
    cases h
    simp
  · rcases cts with _ | ts
    · simp only [getCachedOrFreshData] at h
      exact absurd h (by simp)
    · simp only [getCachedOrFreshData] at h
      split at h
      · cases h; simp
      · split at h
        · rename_i hflag
          cases h
          simp [hflag]
        · rename_i hflag
          cases h
          simp [Bool.not_eq_true] at hflag
          simp [hflag]

/-- Both completion paths of `_background_refresh` clear the in-progress
flag. -/
lemma backgroundRefreshStep_flag (result : Option Snap) (now : Nat)
    (s : CacheState) :
    (backgroundRefreshStep result now s).refreshInProgress = false := by
  rcases result <;> rfl

/-- Invariant of the cache system: the number of background-refresh
threads in flight is one exactly when the in-progress flag is set (hence
never more than one), and the snapshot and its timestamp are present or
absent together (so a read never hits the crashing
snapshot-without-timestamp branch). -/
lemma cacheSystem_invariant (ttl : Nat) {σ : SysState}
    (h : Reachable ttl σ) :
    (σ.inFlight = if σ.cs.refreshInProgress then 1 else 0)
    ∧ σ.cs.cache.isSome = σ.cs.cacheTimestamp.isSome := by
  induction h with
  | init => simp [CacheState.initState]
  | step hr hs ih =>
      obtain ⟨ihn, ihc⟩ := ih
      cases hs with
      | @read s n fetched now now2 r h =>
          have ihn' : n = if s.refreshInProgress then 1 else 0 := ihn
          obtain ⟨h1, h2, h3, h4⟩ := getCached_spec h
          refine ⟨?_, by simp [h1, h2]⟩
          show n + (if r.spawnedRefresh then 1 else 0)
              = if r.state.refreshInProgress then 1 else 0
          rcases hsp : r.spawnedRefresh with _ | _
          · rw [hsp, Bool.or_false] at h3
            rw [h3]
            simpa using ihn'
          · rw [hsp, Bool.or_true] at h3
            have hn0 : n = 0 := by rw [h4 hsp] at ihn'; simpa using ihn'
            rw [h3, hn0]
            simp
      | @refreshDone s n result now hn =>
          have ihn' : n = if s.refreshInProgress then 1 else 0 := ihn
          have ihc' : s.cache.isSome = s.cacheTimestamp.isSome := ihc
          constructor
          · show n - 1
              = if (backgroundRefreshStep result now s).refreshInProgress
                then 1 else 0
            rw [backgroundRefreshStep_flag]
            rcases hfl : s.refreshInProgress with _ | _ <;>
              rw [hfl] at ihn' <;> simp at ihn' ⊢ <;> omega
          · show (backgroundRefreshStep result now s).cache.isSome
              = (backgroundRefreshStep result now s).cacheTimestamp.isSome
            rcases result with _ | snap
            · simpa [backgroundRefreshStep] using ihc'
            · simp [backgroundRefreshStep]

/-- C7: for any cache state holding a snapshot, a failed background
refresh clears only the in-progress flag: the cached snapshot and its
timestamp are untouched, so the cache keeps serving the previous stale
data and a later stale read will start a fresh retry. -/
theorem C7_refresh_failure_keeps_snapshot (s : CacheState) (c : Snap)
    (_hc : s.cache = some c) (now : Nat) :
    (backgroundRefreshStep none now s).cache = s.cache
    ∧ (backgroundRefreshStep none now s).cacheTimestamp = s.cacheTimestamp
    ∧ (backgroundRefreshStep none now s).refreshInProgress = false := by
  simp [backgroundRefreshStep]

/-- Witness for C7 on a concrete stale state with a refresh in flight. -/
theorem C7_refresh_failure_keeps_snapshot_witness :
    (backgroundRefreshStep none 10
        (⟨some [], some 5, true, 0, 0, 0⟩ : CacheState)).cache
      = (⟨some [], some 5, true, 0, 0, 0⟩ : CacheState).cache
    ∧ (backgroundRefreshStep none 10
        (⟨some [], some 5, true, 0, 0, 0⟩ : CacheState)).cacheTimestamp
      = (⟨some [], some 5, true, 0, 0, 0⟩ : CacheState).cacheTimestamp
    ∧ (backgroundRefreshStep none 10
        (⟨some [], some 5, true, 0, 0, 0⟩ : CacheState)).refreshInProgress
      = false :=
  C7_refresh_failure_keeps_snapshot ⟨some [], some 5, true, 0, 0, 0⟩ [] rfl 10

/-- C8: a read of a fresh cache (snapshot present, age below TTL) returns
the cached snapshot, performs no fetch, spawns no refresh, and leaves
snapshot, timestamp, and in-progress flag untouched (only the hit counter
and age gauge move); consequently a second read still within the TTL
returns the identical snapshot and also triggers no fetch. -/
theorem C8_fresh_read_frame (ttl : Nat) (f1 f2 : Snap)
    (now1 nowB1 now2 nowB2 : Nat) (s : CacheState) (c : Snap) (ts : Nat)
    (hc : s.cache = some c) (hts : s.cacheTimestamp = some ts)
    (h1 : now1 - ts < ttl) (h2 : now2 - ts < ttl) :
    ∃ r1 r2 : ReadResult,
      getCachedOrFreshData ttl f1 now1 nowB1 s = some r1
      ∧ r1.returned = c ∧ r1.didFetch = false ∧ r1.spawnedRefresh = false
      ∧ r1.state.cache = s.cache
      ∧ r1.state.cacheTimestamp = s.cacheTimestamp
      ∧ r1.state.refreshInProgress = s.refreshInProgress
      ∧ getCachedOrFreshData ttl f2 now2 nowB2 r1.state = some r2
      ∧ r2.returned = c ∧ r2.didFetch = false ∧ r2.spawnedRefresh = false
      ∧ r2.state.cache = s.cache
      ∧ r2.state.cacheTimestamp = s.cacheTimestamp := by
  obtain ⟨cache, cts, flag, hits, misses, age⟩ := s
  replace hc : cache = some c := hc
  replace hts : cts = some ts := hts
  subst hc
  subst hts
  refine ⟨⟨⟨some c, some ts, flag, hits + 1, misses, now1 - ts⟩,
            c, false, false⟩,
          ⟨⟨some c, some ts, flag, hits + 1 + 1, misses, now2 - ts⟩,
            c, false, false⟩,
          ?_, rfl, rfl, rfl, rfl, rfl, rfl, ?_, rfl, rfl, rfl, rfl, rfl⟩
  · simp [getCachedOrFreshData, h1]
  · simp [getCachedOrFreshData, h2]

/-- Witness for C8 on a concrete fresh state read twice within the TTL. -/
theorem C8_fresh_read_frame_witness :
    ∃ r1 r2 : ReadResult,
      getCachedOrFreshData 100 [] 10 0
          (⟨some [], some 0, false, 0, 0, 0⟩ : CacheState) = some r1
      ∧ r1.returned = [] ∧ r1.didFetch = false ∧ r1.spawnedRefresh = false
      ∧ r1.state.cache
          = (⟨some [], some 0, false, 0, 0, 0⟩ : CacheState).cache
      ∧ r1.state.cacheTimestamp
          = (⟨some [], some 0, false, 0, 0, 0⟩ : CacheState).cacheTimestamp
      ∧ r1.state.refreshInProgress
          = (⟨some [], some 0, false, 0, 0, 0⟩ : CacheState).refreshInProgress
      ∧ getCachedOrFreshData 100 [] 20 0 r1.state = some r2
      ∧ r2.returned = [] ∧ r2.didFetch = false ∧ r2.spawnedRefresh = false
      ∧ r2.state.cache
          = (⟨some [], some 0, false, 0, 0, 0⟩ : CacheState).cache
      ∧ r2.state.cacheTimestamp
          = (⟨some [], some 0, false, 0, 0, 0⟩ : CacheState).cacheTimestamp :=
  C8_fresh_read_frame 100 [] [] 10 0 20 0
    ⟨some [], some 0, false, 0, 0, 0⟩ [] 0 rfl rfl
    (by decide) (by decide)

/-- C4: in any reachable state of the cache system at most one background
refresh is in flight, and a read of a stale cache (snapshot present, age
at or above TTL) returns the cached stale snapshot without any blocking
fetch, spawns a new refresh exactly when the in-progress flag was clear,
and leaves the flag set afterwards — so concurrent stale reads can never
start a second refresh. -/
theorem C4_stale_read_single_refresh (ttl : Nat) (σ : SysState)
    (hσ : Reachable ttl σ) (f : Snap) (now now2 : Nat) (c : Snap) (ts : Nat)
    (hc : σ.cs.cache = some c) (hts : σ.cs.cacheTimestamp = some ts)
    (hstale : ttl ≤ now - ts) :
    σ.inFlight ≤ 1
    ∧ ∃ r : ReadResult,
        getCachedOrFreshData ttl f now now2 σ.cs = some r
        ∧ r.returned = c
        ∧ r.didFetch = false
        ∧ r.spawnedRefresh = !σ.cs.refreshInProgress
        ∧ r.state.refreshInProgress = true
        ∧ r.state.cache = σ.cs.cache
        ∧ r.state.cacheTimestamp = σ.cs.cacheTimestamp := by
  have hinv := (cacheSystem_invariant ttl hσ).1
  constructor
  · rw [hinv]
    split <;> omega
  · have hno : ¬ (now - ts < ttl) := Nat.not_lt.mpr hstale
    obtain ⟨⟨cache, cts, flag, hits, misses, age⟩, n⟩ := σ
    replace hc : cache = some c := hc
    replace hts : cts = some ts := hts
    subst hc
    subst hts
    rcases flag with _ | _
    · exact ⟨⟨⟨some c, some ts, true, hits, misses + 1, now - ts⟩,
          c, false, true⟩,
        by simp [getCachedOrFreshData, hno], rfl, rfl, rfl, rfl, rfl, rfl⟩
    · exact ⟨⟨⟨some c, some ts, true, hits, misses + 1, now - ts⟩,
          c, false, false⟩,
        by simp [getCachedOrFreshData, hno], rfl, rfl, rfl, rfl, rfl, rfl⟩

/-- Witness for C4: the state reached from the empty initial cache by one
bootstrap read (snapshot stored at time 0), read again at time 10 with
TTL 5 — a stale read that spawns exactly one refresh. -/
theorem C4_stale_read_single_refresh_witness :
    (⟨⟨some [], some 0, false, 0, 1, 0⟩, 0⟩ : SysState).inFlight ≤ 1
    ∧ ∃ r : ReadResult,
        getCachedOrFreshData 5 [] 10 11
            (⟨⟨some [], some 0, false, 0, 1, 0⟩, 0⟩ : SysState).cs = some r
        ∧ r.returned = []
        ∧ r.didFetch = false
        ∧ r.spawnedRefresh
            = !(⟨⟨some [], some 0, false, 0, 1, 0⟩, 0⟩
                : SysState).cs.refreshInProgress
        ∧ r.state.refreshInProgress = true
        ∧ r.state.cache
            = (⟨⟨some [], some 0, false, 0, 1, 0⟩, 0⟩ : SysState).cs.cache
        ∧ r.state.cacheTimestamp
            = (⟨⟨some [], some 0, false, 0, 1, 0⟩, 0⟩
                : SysState).cs.cacheTimestamp := by
  refine C4_stale_read_single_refresh 5
    (⟨⟨some [], some 0, false, 0, 1, 0⟩, 0⟩ : SysState) ?_
    [] 10 11 [] 0 rfl rfl (by decide)
  exact Reachable.step Reachable.init
    (CacheStep.read
      (rfl : getCachedOrFreshData 5 [] 0 0 CacheState.initState
        = some ⟨⟨some [], some 0, false, 0, 1, 0⟩, [], true, false⟩))

/-- C10 counterexample: the claim says the fetch always runs outside the
lock, but the Empty-state bootstrap read (cache absent, hence not valid)
performs its blocking `_get_container_metrics()` fetch at line 183 inside
the `with self._cache_lock:` block opened at line 166 — its trace contains
a fetch action executed with the lock held. -/
theorem C10_bootstrap_fetch_under_lock :
    ((readTrace false true).any fun a => a.isFetch && a.underLock) = true := by
  decide

/-- C10 amended: every access to the cached snapshot, timestamp, and
in-progress flag happens under the single cache lock, and the
background-refresh fetch runs outside the lock; however the read path
holds the lock across a fetch in exactly one case — the Empty-state
bootstrap blocking fetch (cache absent and not valid). -/
theorem C10_lock_discipline :
    (∀ fails : Bool,
        ((backgroundRefreshTrace fails).any
            fun a => a.isFetch && a.underLock) = false)
    ∧ (∀ valid cacheAbsent : Bool,
        ((readTrace valid cacheAbsent).any
            fun a => a.isFetch && a.underLock) = (!valid && cacheAbsent))
    ∧ (∀ valid cacheAbsent : Bool,
        ((readTrace valid cacheAbsent).all
            fun a => a.isFetch || a.underLock) = true)
    ∧ (∀ fails : Bool,
        ((backgroundRefreshTrace fails).all
            fun a => a.isFetch || a.underLock) = true) := by
  refine ⟨?_, ?_, ?_, ?_⟩ <;> decide

end AzureExporter
